import Mathlib

/-!
# Verification of the easy-wager-on-sol escrow SDK

Shallow embedding of the TypeScript SDK (`src/sdk/client.ts`,
`src/sdk/instructions.ts`, the utility module and the type module) in Lean 4,
together with theorems settling the specification claims.

Conventions of the embedding:
* `bn.js` big integers (`BN`) are arbitrary-precision and non-negative in every
  code path modelled here, so they are embedded as `ℕ`.
* Public keys appearing at the instruction level are embedded as `ℕ`; the
  all-zeros key `PublicKey.default` (which is also the system program id on
  Solana) is `0`.
* Raw account buffers are lists of bytes (`List ℕ`).
* TypeScript functions that can `throw` are embedded with `Except`/`Option`
  result types; functions with no failure path return plain values.
-/

namespace EasyWager

/-- Error kinds distinguished by the SDK and by the escrow state machine. -/
inductive WagerErr where
  | invalidConfiguration
  | wrongState
  | selfJoinForbidden
  | stakeKindMismatch
  | unauthorized
  | invalidWinner
  | notYetExpired
  | overflow
  deriving Repr, DecidableEq

/-- `PayoutAmounts` from `src/unnamed/part_000` (`winnerAmount`, `feeAmount`,
`totalPot`, all `BN`). -/
structure PayoutAmounts where
  winnerAmount : ℕ
  feeAmount : ℕ
  totalPot : ℕ
  deriving Repr, DecidableEq

/-- `calculatePayouts` from `src/unnamed/part_001` (lines 114-124):
`totalPot = wager.muln(2)`, `winnerAmount = totalPot.muln(payoutBps).divn(10000)`,
`feeAmount = totalPot.sub(winnerAmount)`.  `BN` arithmetic is exact and
arbitrary-precision, so the function is total and never fails. -/
def calculatePayouts (wager : ℕ) (payoutBps : ℕ) : PayoutAmounts :=
  let totalPot := wager * 2
  let winnerAmount := totalPot * payoutBps / 10000
  let feeAmount := totalPot - winnerAmount
  { winnerAmount := winnerAmount, feeAmount := feeAmount, totalPot := totalPot }

/-- C1: for every stake amount and every payout fraction in 1..9999,
`calculatePayouts` returns `total_pot = stake * 2`,
`winner_amount = ⌊total_pot * bps / 10000⌋`, `fee_amount = total_pot -
winner_amount`, so `winner_amount + fee_amount = stake * 2` exactly; and the
scenario stake = 1,000,000,000, bps = 8500 yields pot 2,000,000,000, winner
1,700,000,000, fee 300,000,000. -/
theorem calculatePayouts_correct (wager payoutBps : ℕ)
    (h1 : 1 ≤ payoutBps) (h2 : payoutBps ≤ 9999) :
    (calculatePayouts wager payoutBps).totalPot = wager * 2 ∧
    (calculatePayouts wager payoutBps).winnerAmount = wager * 2 * payoutBps / 10000 ∧
    (calculatePayouts wager payoutBps).feeAmount =
      wager * 2 - wager * 2 * payoutBps / 10000 ∧
    (calculatePayouts wager payoutBps).winnerAmount
        + (calculatePayouts wager payoutBps).feeAmount = wager * 2 ∧
    calculatePayouts 1000000000 8500 =
      { winnerAmount := 1700000000, feeAmount := 300000000, totalPot := 2000000000 } := by
  refine ⟨rfl, rfl, rfl, ?_, by rfl⟩
  have h3 : wager * 2 * payoutBps ≤ wager * 2 * 10000 :=
    Nat.mul_le_mul_left _ (by omega)
  have h4 : wager * 2 * payoutBps / 10000 ≤ wager * 2 * 10000 / 10000 :=
    Nat.div_le_div_right h3
  rw [Nat.mul_div_cancel _ (by norm_num : (0:ℕ) < 10000)] at h4
  simp only [calculatePayouts]
  omega

/-- Witness for `calculatePayouts_correct` at stake 1,000,000,000 and
bps 8500. -/
theorem calculatePayouts_correct_witness :
    1 ≤ 8500 ∧ 8500 ≤ 9999 ∧
      (calculatePayouts 1000000000 8500).winnerAmount
        + (calculatePayouts 1000000000 8500).feeAmount = 1000000000 * 2 :=
  ⟨by decide, by decide,
    (calculatePayouts_correct 1000000000 8500 (by decide) (by decide)).2.2.2.1⟩

/-- C4 counterexample: at stake `2^63 = 9223372036854775808`, which exceeds
`u64::MAX / 2 = 9223372036854775807`, `calculatePayouts` does not fail with an
`Overflow` error: it returns a concrete result whose `totalPot = 2^64` exceeds
the `u64` range, because the source computes with arbitrary-precision `BN`
values and contains no overflow check. -/
theorem payouts_overflow_counterexample :
    calculatePayouts 9223372036854775808 8500 =
      { winnerAmount := 15679732462653118873
        feeAmount := 2767011611056432743
        totalPot := 18446744073709551616 } := by rfl

/-- C4 amended: `calculatePayouts` performs no overflow detection.  For every
stake amount exceeding `u64::MAX / 2` it still returns a result (its Lean type
is total, mirroring the absence of any failure path in the source), with
`totalPot = stake * 2` strictly above `u64::MAX`. -/
theorem payouts_no_overflow_detection (wager payoutBps : ℕ)
    (h : 9223372036854775807 < wager) :
    (calculatePayouts wager payoutBps).totalPot = wager * 2 ∧
    18446744073709551615 < (calculatePayouts wager payoutBps).totalPot := by
  refine ⟨rfl, ?_⟩
  simp only [calculatePayouts]
  omega

/-- Witness for `payouts_no_overflow_detection` at stake `2^63`. -/
theorem payouts_no_overflow_detection_witness :
    9223372036854775807 < 9223372036854775808 ∧
      18446744073709551615 < (calculatePayouts 9223372036854775808 8500).totalPot :=
  ⟨by decide, (payouts_no_overflow_detection 9223372036854775808 8500 (by decide)).2⟩

/-- `generateNonce` from `src/unnamed/part_001` (lines 166-168):
`new BN(Math.floor(Math.random() * 1000000))`.  `Math.random()` returns a
value in `[0, 1)`, embedded here as an exact rational argument `r`; for every
double in `[0, 1)` the rounded product `r * 1000000` stays strictly below
`1000000`, so the exact-rational model agrees with the floating-point source
on the claimed range. -/
def generateNonce (r : ℚ) : ℤ := ⌊r * 1000000⌋

/-- C10: for every value of the underlying random source in `[0, 1)`, the
default nonce produced by `generateNonce` is a non-negative integer strictly
below 1,000,000 — a 10^6-value space, not the full 64-bit range of the
record's nonce field. -/
theorem generateNonce_range (r : ℚ) (h0 : 0 ≤ r) (h1 : r < 1) :
    0 ≤ generateNonce r ∧ generateNonce r < 1000000 := by
  constructor
  · exact Int.floor_nonneg.mpr (by positivity)
  · apply Int.floor_lt.mpr
    push_cast
    nlinarith

/-- Witness for `generateNonce_range` at `r = 1/2`. -/
theorem generateNonce_range_witness :
    0 ≤ (1/2 : ℚ) ∧ (1/2 : ℚ) < 1 ∧
      0 ≤ generateNonce (1/2) ∧ generateNonce (1/2) < 1000000 :=
  ⟨by norm_num, by norm_num,
    (generateNonce_range (1/2) (by norm_num) (by norm_num)).1,
    (generateNonce_range (1/2) (by norm_num) (by norm_num)).2⟩

/-! ## Account layout codec (src/sdk/client.ts, deserializeGameAccount) -/

/-- `Buffer.slice(start, stop)`: clamps to the buffer bounds, never throws. -/
def bslice (data : List ℕ) (start stop : ℕ) : List ℕ :=
  (data.drop start).take (stop - start)

/-- `new PublicKey(data.slice(off, off + 32))`: the `PublicKey` constructor
throws unless it is given exactly 32 bytes. -/
def readPubkeyBytes (data : List ℕ) (off : ℕ) : Option (List ℕ) :=
  if (bslice data off (off + 32)).length = 32 then some (bslice data off (off + 32))
  else none

/-- `Buffer.readUInt8(off)`: throws if `off` is past the end. -/
def readUInt8 (data : List ℕ) (off : ℕ) : Option ℕ :=
  data.get? off

/-- `Buffer.readUInt16LE(off)`: throws unless `off + 2 ≤ length`. -/
def readUInt16LE (data : List ℕ) (off : ℕ) : Option ℕ :=
  if off + 2 ≤ data.length then some (data.getD off 0 + 256 * data.getD (off + 1) 0)
  else none

/-- `new BN(bytes, 'le')`: little-endian, tolerates any length (empty = 0). -/
def bnFromLE (bytes : List ℕ) : ℕ :=
  bytes.foldr (fun b acc => b + 256 * acc) 0

/-- The decoded escrow record, with public keys kept as raw 32-byte lists. -/
structure DecodedGame where
  creator : List ℕ
  player1 : List ℕ
  player2 : List ℕ
  resolver : List ℕ
  devWallet : List ℕ
  mint : List ℕ
  wager : ℕ
  payoutBps : ℕ
  state : ℕ
  expiryTs : ℕ
  nonce : ℕ
  bump : ℕ
  vaultBump : ℕ
  deriving Repr, DecidableEq

/-- `deserializeGameAccount` from `src/sdk/client.ts` (lines 430-477): starts
at offset 8 ("skip discriminator") and reads the six 32-byte keys, the u64
wager, the u16 payoutBps, the u8 state, the u64 expiry and nonce, and the two
u8 bumps, in order.  No length precheck and no type-tag comparison is
performed. -/
def deserializeGameAccount (data : List ℕ) : Option DecodedGame := do
  let creator ← readPubkeyBytes data 8
  let player1 ← readPubkeyBytes data 40
  let player2 ← readPubkeyBytes data 72
  let resolver ← readPubkeyBytes data 104
  let devWallet ← readPubkeyBytes data 136
  let mint ← readPubkeyBytes data 168
  let wager := bnFromLE (bslice data 200 208)
  let payoutBps ← readUInt16LE data 208
  let state ← readUInt8 data 210
  let expiryTs := bnFromLE (bslice data 211 219)
  let nonce := bnFromLE (bslice data 219 227)
  let bump ← readUInt8 data 227
  let vaultBump ← readUInt8 data 228
  pure { creator := creator, player1 := player1, player2 := player2,
         resolver := resolver, devWallet := devWallet, mint := mint,
         wager := wager, payoutBps := payoutBps, state := state,
         expiryTs := expiryTs, nonce := nonce, bump := bump,
         vaultBump := vaultBump }

lemma readPubkeyBytes_of_le (data : List ℕ) (off : ℕ) (h : off + 32 ≤ data.length) :
    readPubkeyBytes data off = some (bslice data off (off + 32)) := by
  have hlen : (bslice data off (off + 32)).length = 32 := by
    simp [bslice, List.length_take, List.length_drop]
    omega
  unfold readPubkeyBytes
  rw [if_pos hlen]

/-- C8 amended: `deserializeGameAccount` succeeds exactly when the buffer
holds at least 229 bytes.  For shorter buffers some field read runs past the
end and the decode throws; the leading 8-byte type tag is skipped, never
compared. -/
theorem deserializeGameAccount_isSome_iff (data : List ℕ) :
    (deserializeGameAccount data).isSome = true ↔ 229 ≤ data.length := by
  constructor
  · intro h
    by_contra hlen
    push_neg at hlen
    suffices hnone : deserializeGameAccount data = none by
      rw [hnone] at h
      simp at h
    have h228 : readUInt8 data 228 = none := by
      simp [readUInt8, List.get?_eq_none]
      omega
    rcases hc1 : readPubkeyBytes data 8 with _ | c1
    · simp [deserializeGameAccount, hc1]
    rcases hc2 : readPubkeyBytes data 40 with _ | c2
    · simp [deserializeGameAccount, hc1, hc2]
    rcases hc3 : readPubkeyBytes data 72 with _ | c3
    · simp [deserializeGameAccount, hc1, hc2, hc3]
    rcases hc4 : readPubkeyBytes data 104 with _ | c4
    · simp [deserializeGameAccount, hc1, hc2, hc3, hc4]
    rcases hc5 : readPubkeyBytes data 136 with _ | c5
    · simp [deserializeGameAccount, hc1, hc2, hc3, hc4, hc5]
    rcases hc6 : readPubkeyBytes data 168 with _ | c6
    · simp [deserializeGameAccount, hc1, hc2, hc3, hc4, hc5, hc6]
    rcases hc7 : readUInt16LE data 208 with _ | c7
    · simp [deserializeGameAccount, hc1, hc2, hc3, hc4, hc5, hc6, hc7]
    rcases hc8 : readUInt8 data 210 with _ | c8
    · simp [deserializeGameAccount, hc1, hc2, hc3, hc4, hc5, hc6, hc7, hc8]
    rcases hc9 : readUInt8 data 227 with _ | c9
    · simp [deserializeGameAccount, hc1, hc2, hc3, hc4, hc5, hc6, hc7, hc8, hc9]
    simp [deserializeGameAccount, hc1, hc2, hc3, hc4, hc5, hc6, hc7, hc8, hc9, h228]
  · intro h
    have e1 := readPubkeyBytes_of_le data 8 (by omega)
    have e2 := readPubkeyBytes_of_le data 40 (by omega)
    have e3 := readPubkeyBytes_of_le data 72 (by omega)
    have e4 := readPubkeyBytes_of_le data 104 (by omega)
    have e5 := readPubkeyBytes_of_le data 136 (by omega)
    have e6 := readPubkeyBytes_of_le data 168 (by omega)
    have e7 : readUInt16LE data 208 =
        some (data.getD 208 0 + 256 * data.getD 209 0) := by
      unfold readUInt16LE
      rw [if_pos (show 208 + 2 ≤ data.length by omega)]
    have e8 := List.getElem?_eq_getElem (show 210 < data.length by omega)
    have e9 := List.getElem?_eq_getElem (show 227 < data.length by omega)
    have e10 := List.getElem?_eq_getElem (show 228 < data.length by omega)
    simp [deserializeGameAccount, readUInt8, e1, e2, e3, e4, e5, e6, e7, e8, e9, e10]

set_option maxRecDepth 10000

/-- C8 counterexample: two 229-byte buffers whose leading 8-byte type tags
differ (all-zero tag versus all-255 tag) both decode to a record.  Whatever
the expected type tag is, at least one of the two does not match it, so
decoding does return a record from a buffer with a non-matching tag: the
decoder never inspects the tag. -/
theorem decode_wrong_tag_counterexample :
    (deserializeGameAccount (List.replicate 229 0)).isSome = true ∧
    (deserializeGameAccount (List.replicate 8 255 ++ List.replicate 221 0)).isSome = true ∧
    (List.replicate 229 0).take 8 ≠
      (List.replicate 8 255 ++ List.replicate 221 0).take 8 := by
  decide

/-! ## Query/filter layer (src/sdk/client.ts, getGamesByState) -/

/-- The memcmp offset installed by `getGamesByState`
(`src/sdk/client.ts` line 297): `8 + 32 * 5 + 8 + 2`, commented in the source
as "After all pubkeys, wager, and payoutBps" — although the layout holds six
32-byte keys, not five. -/
def stateFilterOffset : ℕ := 8 + 32 * 5 + 8 + 2

/-- The single-byte memcmp filter used by `getGamesByState`: a stored buffer
matches lifecycle state `s` iff its byte at `stateFilterOffset` equals `s`
(a memcmp past the end of the account data never matches). -/
def stateFilterMatches (s : ℕ) (data : List ℕ) : Bool :=
  data.get? stateFilterOffset == some s

/-- A well-formed 229-byte escrow record in lifecycle state Ready (state byte
1 at offset 210): zero type tag, creator = player_one = 32×1, player_two =
32×2, resolver = 32×3, fee recipient = 32×4, stake kind = 32×5, stake amount
1,000,000,000 LE, payout fraction 8500 LE, then expiry, nonce and the two
bumps. -/
def sampleReadyRecord : List ℕ :=
  List.replicate 8 0 ++
  List.replicate 32 1 ++
  List.replicate 32 1 ++
  List.replicate 32 2 ++
  List.replicate 32 3 ++
  List.replicate 32 4 ++
  List.replicate 32 5 ++
  [0, 202, 154, 59, 0, 0, 0, 0] ++
  [52, 33] ++
  [1] ++
  [0, 0, 0, 0, 1, 0, 0, 0] ++
  [42, 0, 0, 0, 0, 0, 0, 0] ++
  [254] ++ [255]

/-- C2: the filter offset used by `getGamesByState` is `8 + 32*5 + 8 + 2 =
178`, not the `8 + 32*6 + 8 + 2 = 210` dictated by the layout and used by the
decoder: on a well-formed 229-byte record in state Ready (decoded state = 1,
byte 210 = 1) the filter compares byte 178 — a byte inside the stake-kind
field — and fails to match the record. -/
theorem getGamesByState_offset_mismatch :
    stateFilterOffset = 178 ∧
    sampleReadyRecord.length = 229 ∧
    (deserializeGameAccount sampleReadyRecord).map DecodedGame.state = some 1 ∧
    sampleReadyRecord.get? (8 + 32 * 6 + 8 + 2) = some 1 ∧
    stateFilterMatches 1 sampleReadyRecord = false := by
  decide

/-! ## Instruction protocol (src/sdk/instructions.ts)

Public keys are embedded as `ℕ`.  `PublicKey.default` — which is also the
system program id on Solana (both are the all-zeros key) — is `0`; the other
fixed program keys are small distinct constants; derived addresses are
produced by an injective stand-in for the collision-resistant hash of the
external library and land at `4` or above, clear of the fixed keys.  The
instruction data payload is not modelled: no claim concerns it. -/

/-- `PublicKey.default` = the all-zeros key = `SystemProgram.programId`. -/
def systemProgramId : ℕ := 0

/-- The fixed SPL token program key. -/
def TOKEN_PROGRAM_ID : ℕ := 2

/-- The fixed rent sysvar key (`SYSVAR_RENT_PUBKEY`). -/
def SYSVAR_RENT : ℕ := 3

/-- Seed tag for the string seed `'game'`. -/
def gameSeed : ℕ := 100

/-- Seed tag for the string seed `'vault'`. -/
def vaultSeed : ℕ := 101

/-- Seed tag for associated-token-account derivation. -/
def ataSeed : ℕ := 102

/-- Injective stand-in for the external collision-resistant address
derivations: pairs the seed list into `[4, ∞)`. -/
def hashAddress (seeds : List ℕ) : ℕ :=
  4 + seeds.foldr Nat.pair 0

/-- `PublicKey.findProgramAddressSync(seeds, programId)`; the bump is the
canonical `255` in this model. -/
def findProgramAddressSync (seeds : List ℕ) (programId : ℕ) : ℕ × ℕ :=
  (hashAddress (programId :: seeds), 255)

/-- `getAssociatedTokenAddressSync(mint, owner)` of the token library. -/
def getAssociatedTokenAddressSync (mint owner : ℕ) : ℕ :=
  hashAddress [ataSeed, mint, owner]

/-- `isNativeSOL` from `src/unnamed/part_001` (line 69):
`mint.equals(PublicKey.default)`. -/
def isNativeSOL (mint : ℕ) : Bool :=
  mint == 0

/-- `GamePDAs` from `src/unnamed/part_000`: vault fields only present for SPL
tokens. -/
structure GamePDAs where
  gamePda : ℕ
  gameBump : ℕ
  vaultPda : Option ℕ
  vaultBump : Option ℕ
  deriving Repr, DecidableEq

/-- `deriveGamePDAs` from `src/unnamed/part_001` (lines 25-64): game PDA from
seeds `['game', creator, nonce]`; vault PDA from `['vault', gamePda, mint]`
only when the mint is not native SOL. -/
def deriveGamePDAs (creator nonce mint programId : ℕ) : GamePDAs :=
  let g := findProgramAddressSync [gameSeed, creator, nonce] programId
  if mint = 0 then
    { gamePda := g.1, gameBump := g.2, vaultPda := none, vaultBump := none }
  else
    let v := findProgramAddressSync [vaultSeed, g.1, mint] programId
    { gamePda := g.1, gameBump := g.2, vaultPda := some v.1, vaultBump := some v.2 }

/-- One entry of an instruction's ordered account-reference list. -/
structure AccountMeta where
  pubkey : ℕ
  isSigner : Bool
  isWritable : Bool
  deriving Repr, DecidableEq

/-- A `TransactionInstruction`: ordered account references and program id
(the data payload is not modelled). -/
structure Instruction where
  keys : List AccountMeta
  programId : ℕ
  deriving Repr, DecidableEq

/-- `validatePayoutBps` from `src/unnamed/part_001` (lines 227-231): throws
("Payout basis points must be between 1 and 9999", the
`InvalidConfiguration` kind) iff `payoutBps <= 0 || payoutBps >= 10000`. -/
def validatePayoutBps (payoutBps : ℕ) : Except WagerErr Unit :=
  if payoutBps ≤ 0 ∨ 10000 ≤ payoutBps then .error .invalidConfiguration
  else .ok ()

/-- `CreateGameArgs` from `src/unnamed/part_000`. -/
structure CreateGameArgs where
  mint : ℕ
  wager : ℕ
  payoutBps : ℕ
  expiryTs : ℕ
  resolverPubkey : Option ℕ
  devWallet : ℕ
  nonce : Option ℕ
  deriving Repr, DecidableEq

/-- Result of `createCreateGameInstruction`. -/
structure CreateGameResult where
  instruction : Instruction
  gamePda : ℕ
  preInstructions : List Instruction
  deriving Repr, DecidableEq

/-- `createCreateGameInstruction` from `src/sdk/instructions.ts` (lines
33-102): validates the payout basis points, defaults the nonce (a `BN` is
always truthy, so `args.nonce || generateNonce()` is exactly
`getD`), derives the PDAs, throws if an SPL-token mint has no vault PDA, and
builds the ordered key list — vault and mint entries are spliced in only for
SPL tokens, while the dev wallet, token program, system program and rent
entries are unconditional.  `freshNonce` stands for the sampled
`generateNonce()` value. -/
def createCreateGameInstruction (creator : ℕ) (args : CreateGameArgs)
    (freshNonce : ℕ) (programId : ℕ) : Except WagerErr CreateGameResult :=
  match validatePayoutBps args.payoutBps with
  | .error e => .error e
  | .ok _ =>
    let nonce := args.nonce.getD freshNonce
    let pdas := deriveGamePDAs creator nonce args.mint programId
    if ¬ isNativeSOL args.mint ∧ pdas.vaultPda = none then
      .error .invalidConfiguration
    else
      .ok
        { instruction :=
            { keys :=
                [ { pubkey := creator, isSigner := true, isWritable := true },
                  { pubkey := pdas.gamePda, isSigner := false, isWritable := true } ] ++
                (match pdas.vaultPda with
                  | some v => [{ pubkey := v, isSigner := false, isWritable := true }]
                  | none => []) ++
                (if isNativeSOL args.mint then []
                  else [{ pubkey := args.mint, isSigner := false, isWritable := false }]) ++
                [ { pubkey := args.devWallet, isSigner := false, isWritable := false },
                  { pubkey := TOKEN_PROGRAM_ID, isSigner := false, isWritable := false },
                  { pubkey := systemProgramId, isSigner := false, isWritable := false },
                  { pubkey := SYSVAR_RENT, isSigner := false, isWritable := false } ]
              programId := programId }
          gamePda := pdas.gamePda
          preInstructions := [] }

/-- `GameState` from `src/unnamed/part_000`. -/
inductive GameState where
  | Open
  | Ready
  | Paid
  | Canceled
  | Expired
  deriving Repr, DecidableEq

/-- The decoded escrow record at the abstract (instruction-level) view:
`GameAccount` from `src/unnamed/part_000`. -/
structure GameAccount where
  creator : ℕ
  player1 : ℕ
  player2 : ℕ
  resolver : ℕ
  devWallet : ℕ
  mint : ℕ
  wager : ℕ
  payoutBps : ℕ
  state : GameState
  expiryTs : ℕ
  nonce : ℕ
  bump : ℕ
  vaultBump : ℕ
  deriving Repr, DecidableEq

/-- `GameAccountImpl.canJoin` from `src/sdk/client.ts` (lines 519-521):
`state === GameState.Open && player2.equals(PublicKey.default)`. -/
def GameAccount.canJoin (g : GameAccount) : Bool :=
  g.state == GameState.Open && g.player2 == 0

/-- `GameAccountImpl.canResolve` from `src/sdk/client.ts` (lines 523-525). -/
def GameAccount.canResolve (g : GameAccount) : Bool :=
  g.state == GameState.Ready

/-- `createJoinGameInstruction` from `src/sdk/instructions.ts` (lines
107-165): `[player2, gamePda]`, then for SPL tokens the joiner's associated
token account and the vault, or for native SOL two system-program
placeholders, then the token program and the system program.  The
connection-dependent companion-account creation pre-instruction is not
modelled (no claim concerns it). -/
def createJoinGameInstruction (player2 gamePda : ℕ) (g : GameAccount)
    (programId : ℕ) : Instruction :=
  let base := [ ({ pubkey := player2, isSigner := true, isWritable := true } : AccountMeta),
                { pubkey := gamePda, isSigner := false, isWritable := true } ]
  let mid :=
    if ¬ isNativeSOL g.mint then
      let player2TokenAccount := getAssociatedTokenAddressSync g.mint player2
      let vaultPda := (deriveGamePDAs g.creator g.nonce g.mint programId).vaultPda.getD 0
      [ ({ pubkey := player2TokenAccount, isSigner := false, isWritable := true } : AccountMeta),
        { pubkey := vaultPda, isSigner := false, isWritable := true } ]
    else
      [ ({ pubkey := systemProgramId, isSigner := false, isWritable := false } : AccountMeta),
        { pubkey := systemProgramId, isSigner := false, isWritable := false } ]
  { keys := base ++ mid ++
      [ { pubkey := TOKEN_PROGRAM_ID, isSigner := false, isWritable := false },
        { pubkey := systemProgramId, isSigner := false, isWritable := false } ]
    programId := programId }

/-- `createResolveGameInstruction` from `src/sdk/instructions.ts` (lines
170-243): `[resolver, gamePda]`, then for SPL tokens the winner's and the dev
wallet's associated token accounts and the vault, or three system-program
placeholders for native SOL, then the winner, the dev wallet, the token
program and the system program. -/
def createResolveGameInstruction (resolver gamePda winner : ℕ)
    (g : GameAccount) (programId : ℕ) : Instruction :=
  let base := [ ({ pubkey := resolver, isSigner := true, isWritable := true } : AccountMeta),
                { pubkey := gamePda, isSigner := false, isWritable := true } ]
  let mid :=
    if ¬ isNativeSOL g.mint then
      let winnerTokenAccount := getAssociatedTokenAddressSync g.mint winner
      let devTokenAccount := getAssociatedTokenAddressSync g.mint g.devWallet
      let vaultPda := (deriveGamePDAs g.creator g.nonce g.mint programId).vaultPda.getD 0
      [ ({ pubkey := winnerTokenAccount, isSigner := false, isWritable := true } : AccountMeta),
        { pubkey := devTokenAccount, isSigner := false, isWritable := true },
        { pubkey := vaultPda, isSigner := false, isWritable := true } ]
    else
      [ ({ pubkey := systemProgramId, isSigner := false, isWritable := false } : AccountMeta),
        { pubkey := systemProgramId, isSigner := false, isWritable := false },
        { pubkey := systemProgramId, isSigner := false, isWritable := false } ]
  { keys := base ++ mid ++
      [ { pubkey := winner, isSigner := false, isWritable := true },
        { pubkey := g.devWallet, isSigner := false, isWritable := true },
        { pubkey := TOKEN_PROGRAM_ID, isSigner := false, isWritable := false },
        { pubkey := systemProgramId, isSigner := false, isWritable := false } ]
    programId := programId }

/-! ## Client orchestrator prechecks (src/sdk/client.ts) and the escrow
state machine.

The client methods validate fast-fail style before building any instruction;
an error here means no instruction is built and no transaction is submitted.
The authoritative state machine lives in the on-chain Anchor program, which
the repository describes (README: "On-Chain Program (Rust/Anchor) ...
Comprehensive input validation and state checks") but whose source is not
under `src/`; it is modelled from the spec where a claim needs it. -/

/-- `WagerClient.joinGame` precheck (`src/sdk/client.ts` lines 96-98): throws
`InvalidGameStateError(Open, state)` — the `WrongState` kind — unless
`gameAccount.canJoin()`. -/
def joinGameClientCheck (g : GameAccount) : Except WagerErr Unit :=
  if g.canJoin then .ok () else .error .wrongState

/-- `WagerClient.resolveGame` precheck (`src/sdk/client.ts` lines 131-139):
throws the `WrongState` kind unless `canResolve()`, then throws "Winner must
be one of the two players" — the `InvalidWinner` kind — unless the winner is
`player1` or `player2`, and otherwise computes the payouts. -/
def resolveGameClientCheck (g : GameAccount) (winner : ℕ) :
    Except WagerErr PayoutAmounts :=
  if ¬ g.canResolve then .error .wrongState
  else if winner ≠ g.player1 ∧ winner ≠ g.player2 then .error .invalidWinner
  else .ok (calculatePayouts g.wager g.payoutBps)

/-- `WagerClient.updateResolver` precheck (`src/sdk/client.ts` lines
207-209): throws "Cannot update resolver after deposits have been made" —
the `DepositsAlreadyMade` condition, modeled as the `WrongState` kind —
unless the state is `Open`. -/
def updateResolverClientCheck (g : GameAccount) : Except WagerErr Unit :=
  if g.state ≠ GameState.Open then .error .wrongState else .ok ()

/-- Modelled from the spec: the on-chain join handler (§4.1 Open → Ready) is
not under `src/` (only the SDK caller is).  "any caller other than the
creator may join ... Fails with `WrongState` if not Open, `SelfJoinForbidden`
if joiner equals creator, `StakeKindMismatch` if the joiner's deposit is not
the record's declared kind"; on success `player_two` is set and the state
becomes Ready. -/
def joinTransition (g : GameAccount) (joiner depositMint : ℕ) :
    Except WagerErr GameAccount :=
  if g.state ≠ GameState.Open then .error .wrongState
  else if joiner = g.creator then .error .selfJoinForbidden
  else if depositMint ≠ g.mint then .error .stakeKindMismatch
  else .ok { g with player2 := joiner, state := GameState.Ready }

/-- Modelled from the spec: the on-chain resolve handler (§4.1 Ready → Paid)
is not under `src/`.  "only the account matching `resolver` may invoke; must
name a `winner` equal to either `player_one` or `player_two`.  Fails with
`WrongState` if not Ready, `Unauthorized` if caller ≠ resolver,
`InvalidWinner` if winner is neither player"; on success the pool is computed
per §4.3 and the state becomes Paid. -/
def resolveTransition (g : GameAccount) (caller winner : ℕ) :
    Except WagerErr (GameAccount × PayoutAmounts) :=
  if g.state ≠ GameState.Ready then .error .wrongState
  else if caller ≠ g.resolver then .error .unauthorized
  else if winner ≠ g.player1 ∧ winner ≠ g.player2 then .error .invalidWinner
  else .ok ({ g with state := GameState.Paid }, calculatePayouts g.wager g.payoutBps)

/-- The stored record after a resolve attempt: a failed attempt mutates
nothing. -/
def recordAfterResolve (g : GameAccount) (caller winner : ℕ) : GameAccount :=
  match resolveTransition g caller winner with
  | .ok (g2, _) => g2
  | .error _ => g

/-- Modelled from the spec: the on-chain resolver-update handler (§4.1) is
not under `src/`.  "only the creator, only while state==Open ... may change
`resolver`.  Fails with `DepositsAlreadyMade` (modeled as WrongState)
otherwise." -/
def updateResolverTransition (g : GameAccount) (caller newResolver : ℕ) :
    Except WagerErr GameAccount :=
  if caller ≠ g.creator ∨ g.state ≠ GameState.Open then .error .wrongState
  else .ok { g with resolver := newResolver }

/-- The stored record after a resolver-update attempt: a failed attempt
mutates nothing. -/
def recordAfterUpdateResolver (g : GameAccount) (caller newResolver : ℕ) :
    GameAccount :=
  match updateResolverTransition g caller newResolver with
  | .ok g2 => g2
  | .error _ => g

/-- A concrete native-SOL record in state Open: creator 100 (= player one),
no joiner yet, resolver 100, dev wallet 101. -/
def sampleOpenGame : GameAccount :=
  { creator := 100, player1 := 100, player2 := 0, resolver := 100
    devWallet := 101, mint := 0, wager := 5, payoutBps := 8500
    state := GameState.Open, expiryTs := 1000, nonce := 7
    bump := 254, vaultBump := 0 }

/-- `sampleOpenGame` after a join by 102, with third-party resolver 103. -/
def sampleReadyGame : GameAccount :=
  { sampleOpenGame with player2 := 102, state := GameState.Ready, resolver := 103 }

/-- A terminal (Paid) record. -/
def samplePaidGame : GameAccount :=
  { sampleReadyGame with state := GameState.Paid }

/-- An SPL-token variant of `sampleOpenGame` with mint 55. -/
def sampleTokenGame : GameAccount :=
  { sampleOpenGame with mint := 55 }

/-- Concrete native-mode creation arguments with a positive stake. -/
def sampleNativeArgs : CreateGameArgs :=
  { mint := 0, wager := 5, payoutBps := 8500, expiryTs := 1000
    resolverPubkey := none, devWallet := 101, nonce := some 7 }

lemma deriveGamePDAs_token_vault (creator nonce mint programId : ℕ)
    (h : mint ≠ 0) :
    (deriveGamePDAs creator nonce mint programId).vaultPda =
      some (findProgramAddressSync [vaultSeed,
        (findProgramAddressSync [gameSeed, creator, nonce] programId).1, mint]
        programId).1 := by
  simp [deriveGamePDAs, h]

lemma createGame_vault_guard (creator nonce mint programId : ℕ) :
    ¬ (¬ isNativeSOL mint ∧
        (deriveGamePDAs creator nonce mint programId).vaultPda = none) := by
  by_cases h : mint = 0
  · simp [isNativeSOL, h]
  · simp [isNativeSOL, h, deriveGamePDAs]

/-- C3 counterexample: the create instruction built in native stake-kind mode
(mint = `PublicKey.default`) contains the token-program account in its
ordered key list — the builders push `TOKEN_PROGRAM_ID` unconditionally — so
"native mode never references ... token-program accounts" fails at this
concrete input. -/
theorem native_create_token_program_counterexample :
    (createCreateGameInstruction 100 sampleNativeArgs 7 9).toOption.map
        (fun r => (r.instruction.keys.map AccountMeta.pubkey).contains TOKEN_PROGRAM_ID) =
      some true := by
  decide

/-- C3 amended: for the create, join and resolve builders, native mode never
references a vault (their native key lists are exactly the listed ones, which
hold no derived vault address) but each list does contain the token-program
account unconditionally; token mode always references both the vault and the
token program. -/
theorem instruction_account_lists (creator freshNonce programId player2
    gamePda resolverKey winner : ℕ) (args : CreateGameArgs) (g : GameAccount) :
    (args.mint = 0 →
      ∀ r, createCreateGameInstruction creator args freshNonce programId = .ok r →
        r.instruction.keys.map AccountMeta.pubkey =
          [creator, r.gamePda, args.devWallet, TOKEN_PROGRAM_ID,
            systemProgramId, SYSVAR_RENT]) ∧
    (args.mint ≠ 0 →
      ∀ r, createCreateGameInstruction creator args freshNonce programId = .ok r →
        ∀ v, (deriveGamePDAs creator (args.nonce.getD freshNonce) args.mint
              programId).vaultPda = some v →
          v ∈ r.instruction.keys.map AccountMeta.pubkey ∧
          TOKEN_PROGRAM_ID ∈ r.instruction.keys.map AccountMeta.pubkey) ∧
    (g.mint = 0 →
      (createJoinGameInstruction player2 gamePda g programId).keys.map
          AccountMeta.pubkey =
        [player2, gamePda, systemProgramId, systemProgramId,
          TOKEN_PROGRAM_ID, systemProgramId]) ∧
    (g.mint ≠ 0 →
      (deriveGamePDAs g.creator g.nonce g.mint programId).vaultPda.getD 0 ∈
          (createJoinGameInstruction player2 gamePda g programId).keys.map
            AccountMeta.pubkey ∧
      TOKEN_PROGRAM_ID ∈
        (createJoinGameInstruction player2 gamePda g programId).keys.map
          AccountMeta.pubkey) ∧
    (g.mint = 0 →
      (createResolveGameInstruction resolverKey gamePda winner g programId).keys.map
          AccountMeta.pubkey =
        [resolverKey, gamePda, systemProgramId, systemProgramId, systemProgramId,
          winner, g.devWallet, TOKEN_PROGRAM_ID, systemProgramId]) ∧
    (g.mint ≠ 0 →
      (deriveGamePDAs g.creator g.nonce g.mint programId).vaultPda.getD 0 ∈
          (createResolveGameInstruction resolverKey gamePda winner g programId).keys.map
            AccountMeta.pubkey ∧
      TOKEN_PROGRAM_ID ∈
        (createResolveGameInstruction resolverKey gamePda winner g programId).keys.map
          AccountMeta.pubkey) := by
  refine ⟨?_, ?_, ?_, ?_, ?_, ?_⟩
  · intro h r hr
    cases hval : validatePayoutBps args.payoutBps with
    | error e => simp [createCreateGameInstruction, hval] at hr
    | ok u =>
      simp [createCreateGameInstruction, hval, h, isNativeSOL, deriveGamePDAs] at hr
      rw [← hr]
      simp
  · intro h r hr v hv
    cases hval : validatePayoutBps args.payoutBps with
    | error e => simp [createCreateGameInstruction, hval] at hr
    | ok u =>
      rw [deriveGamePDAs_token_vault _ _ _ _ h] at hv
      simp [createCreateGameInstruction, hval, isNativeSOL, h,
        deriveGamePDAs] at hr
      rw [← hr]
      simp [Option.some.injEq] at hv
      simp [hv]
  · intro h
    simp [createJoinGameInstruction, isNativeSOL, h]
  · intro h
    simp [createJoinGameInstruction, isNativeSOL, h]
  · intro h
    simp [createResolveGameInstruction, isNativeSOL, h]
  · intro h
    simp [createResolveGameInstruction, isNativeSOL, h]

/-- Witness for `instruction_account_lists`: the native join key list at a
concrete record, and the token-mode membership facts at a concrete token
record. -/
theorem instruction_account_lists_witness :
    (createJoinGameInstruction 102 200 sampleOpenGame 9).keys.map
        AccountMeta.pubkey =
      [102, 200, systemProgramId, systemProgramId, TOKEN_PROGRAM_ID,
        systemProgramId] ∧
    TOKEN_PROGRAM_ID ∈
      (createResolveGameInstruction 103 200 102 sampleTokenGame 9).keys.map
        AccountMeta.pubkey :=
  ⟨(instruction_account_lists 100 7 9 102 200 103 102 sampleNativeArgs
      sampleOpenGame).2.2.1 rfl,
    ((instruction_account_lists 100 7 9 102 200 103 102 sampleNativeArgs
      sampleTokenGame).2.2.2.2.2 (by decide)).2⟩

/-- C5 counterexample: creation arguments with `stake_amount = 0` and an
expiry of 0 (not in the future) but a valid payout fraction are accepted by
`createCreateGameInstruction`, which returns an instruction — the client
validates only the payout basis points. -/
theorem createGame_zero_stake_counterexample :
    (createCreateGameInstruction 100
        { mint := 0, wager := 0, payoutBps := 8500, expiryTs := 0
          resolverPubkey := none, devWallet := 101, nonce := some 7 } 7 9).isOk
      = true := by
  decide

/-- C5 amended: client-side creation fails with `InvalidConfiguration` iff
the payout fraction is outside (0, 10000) — in particular 10000 fails and no
instruction is produced — while `expiry_time` and `stake_amount` are not
checked: with a valid payout fraction an instruction is produced whatever
their values. -/
theorem createGame_validation (creator freshNonce programId : ℕ)
    (args : CreateGameArgs) :
    (createCreateGameInstruction creator args freshNonce programId =
        .error .invalidConfiguration ↔
      (args.payoutBps = 0 ∨ 10000 ≤ args.payoutBps)) ∧
    (0 < args.payoutBps → args.payoutBps < 10000 →
      (createCreateGameInstruction creator args freshNonce programId).isOk
        = true) := by
  by_cases hbps : args.payoutBps = 0 ∨ 10000 ≤ args.payoutBps
  · have hval : validatePayoutBps args.payoutBps = .error .invalidConfiguration := by
      unfold validatePayoutBps
      rw [if_pos (by omega)]
    constructor
    · simp [createCreateGameInstruction, hval, hbps]
    · intro h1 h2
      omega
  · have hval : validatePayoutBps args.payoutBps = .ok () := by
      unfold validatePayoutBps
      rw [if_neg (by omega)]
    constructor
    · simp only [createCreateGameInstruction, hval]
      rw [if_neg (createGame_vault_guard _ _ _ _)]
      simp [hbps]
    · intro h1 h2
      simp only [createCreateGameInstruction, hval]
      rw [if_neg (createGame_vault_guard _ _ _ _)]
      rfl

/-- Witness for `createGame_validation`: payout fraction 10000 is rejected
with `InvalidConfiguration`, and the sample arguments (payout fraction 8500)
produce an instruction. -/
theorem createGame_validation_witness :
    createCreateGameInstruction 100
        { sampleNativeArgs with payoutBps := 10000 } 7 9 =
      .error .invalidConfiguration ∧
    (createCreateGameInstruction 100 sampleNativeArgs 7 9).isOk = true :=
  ⟨(createGame_validation 100 7 9
        { sampleNativeArgs with payoutBps := 10000 }).1.mpr (Or.inr (by decide)),
    (createGame_validation 100 7 9 sampleNativeArgs).2 (by decide) (by decide)⟩

/-- C6: a join attempt on a record not in state Open fails with `WrongState`
(both in the client precheck from `src/sdk/client.ts` and in the join
transition modelled from the spec); a join attempt by the creator on an Open
record fails with `SelfJoinForbidden`; and a join can only succeed for a
caller other than the creator on an Open record. -/
theorem join_guards (g : GameAccount) (joiner depositMint : ℕ) :
    (g.state ≠ GameState.Open →
      joinTransition g joiner depositMint = .error .wrongState ∧
      joinGameClientCheck g = .error .wrongState) ∧
    (g.state = GameState.Open → joiner = g.creator →
      joinTransition g joiner depositMint = .error .selfJoinForbidden) ∧
    ((joinTransition g joiner depositMint).isOk = true →
      g.state = GameState.Open ∧ joiner ≠ g.creator) := by
  refine ⟨?_, ?_, ?_⟩
  · intro h
    constructor
    · simp [joinTransition, h]
    · simp [joinGameClientCheck, GameAccount.canJoin, h]
  · intro h hj
    simp [joinTransition, h, hj]
  · intro h
    by_cases hs : g.state = GameState.Open
    · by_cases hj : joiner = g.creator
      · simp [joinTransition, hs, hj, Except.isOk, Except.toBool] at h
      · exact ⟨hs, hj⟩
    · simp [joinTransition, hs, Except.isOk, Except.toBool] at h

/-- Witness for `join_guards`: the creator self-join on the concrete Open
record fails with `SelfJoinForbidden`; a join on the concrete Paid record
fails with `WrongState`. -/
theorem join_guards_witness :
    joinTransition sampleOpenGame 100 0 = .error .selfJoinForbidden ∧
    joinTransition samplePaidGame 102 0 = .error .wrongState :=
  ⟨(join_guards sampleOpenGame 100 0).2.1 rfl rfl,
    ((join_guards samplePaidGame 102 0).1 (by decide)).1⟩

/-- C7: on a Ready record, a resolve attempt naming a winner that is neither
player fails with `InvalidWinner` — in the client precheck of
`src/sdk/client.ts` (which therefore builds no instruction and performs no
payout) and, for the authorized caller, in the resolve transition modelled
from the spec — and the stored record is unchanged, so it remains Ready; a
resolve attempt on a record not in state Ready fails with `WrongState`. -/
theorem resolve_invalid_winner (g : GameAccount) (caller winner : ℕ) :
    (g.state = GameState.Ready → winner ≠ g.player1 → winner ≠ g.player2 →
      resolveGameClientCheck g winner = .error .invalidWinner ∧
      (caller = g.resolver →
        resolveTransition g caller winner = .error .invalidWinner) ∧
      recordAfterResolve g caller winner = g) ∧
    (g.state ≠ GameState.Ready →
      resolveGameClientCheck g winner = .error .wrongState ∧
      resolveTransition g caller winner = .error .wrongState) := by
  constructor
  · intro hs h1 h2
    refine ⟨?_, ?_, ?_⟩
    · simp [resolveGameClientCheck, GameAccount.canResolve, hs, h1, h2]
    · intro hc
      simp [resolveTransition, hs, hc, h1, h2]
    · by_cases hc : caller = g.resolver
      · simp [recordAfterResolve, resolveTransition, hs, hc, h1, h2]
      · simp [recordAfterResolve, resolveTransition, hs, hc]
  · intro hs
    constructor
    · simp [resolveGameClientCheck, GameAccount.canResolve, hs]
    · simp [resolveTransition, hs]

/-- Witness for `resolve_invalid_winner`: resolving the concrete Ready record
with winner 999 (neither player 100 nor 102) fails with `InvalidWinner` and
leaves the record unchanged; resolving the concrete Open record fails with
`WrongState`. -/
theorem resolve_invalid_winner_witness :
    resolveGameClientCheck sampleReadyGame 999 = .error .invalidWinner ∧
    recordAfterResolve sampleReadyGame 103 999 = sampleReadyGame ∧
    resolveGameClientCheck sampleOpenGame 999 = .error .wrongState :=
  ⟨((resolve_invalid_winner sampleReadyGame 103 999).1 rfl (by decide)
      (by decide)).1,
    ((resolve_invalid_winner sampleReadyGame 103 999).1 rfl (by decide)
      (by decide)).2.2,
    ((resolve_invalid_winner sampleOpenGame 103 999).2 (by decide)).1⟩

/-- C9: a resolver update succeeds exactly when the caller is the creator and
the record is Open; otherwise it fails with the `WrongState` kind (the
`DepositsAlreadyMade` condition) and the resolver field is unchanged; the
client precheck of `src/sdk/client.ts` rejects any non-Open record the same
way. -/
theorem updateResolver_guards (g : GameAccount) (caller newResolver : ℕ) :
    ((updateResolverTransition g caller newResolver).isOk = true ↔
      (caller = g.creator ∧ g.state = GameState.Open)) ∧
    (caller ≠ g.creator ∨ g.state ≠ GameState.Open →
      updateResolverTransition g caller newResolver = .error .wrongState ∧
      (recordAfterUpdateResolver g caller newResolver).resolver = g.resolver) ∧
    (g.state ≠ GameState.Open →
      updateResolverClientCheck g = .error .wrongState) := by
  refine ⟨?_, ?_, ?_⟩
  · by_cases h : caller = g.creator ∧ g.state = GameState.Open
    · simp [updateResolverTransition, h.1, h.2, Except.isOk, Except.toBool]
    · rw [not_and_or] at h
      constructor
      · intro hk
        by_cases h1 : caller = g.creator
        · by_cases h2 : g.state = GameState.Open
          · exact ⟨h1, h2⟩
          · simp [updateResolverTransition, h2, Except.isOk, Except.toBool] at hk
        · simp [updateResolverTransition, h1, Except.isOk, Except.toBool] at hk
      · intro hk
        exact absurd hk (by tauto)
  · intro h
    have he : updateResolverTransition g caller newResolver = .error .wrongState := by
      rcases h with h | h
      · simp [updateResolverTransition, h]
      · simp [updateResolverTransition, h]
    exact ⟨he, by simp [recordAfterUpdateResolver, he]⟩
  · intro h
    simp [updateResolverClientCheck, h]

/-- Witness for `updateResolver_guards`: a resolver update by 999 (not the
creator 100) on the concrete Open record fails with `WrongState` and leaves
the resolver field (100) unchanged. -/
theorem updateResolver_guards_witness :
    updateResolverTransition sampleOpenGame 999 5 = .error .wrongState ∧
    (recordAfterUpdateResolver sampleOpenGame 999 5).resolver =
      sampleOpenGame.resolver :=
  ⟨((updateResolver_guards sampleOpenGame 999 5).2.1 (Or.inl (by decide))).1,
    ((updateResolver_guards sampleOpenGame 999 5).2.1 (Or.inl (by decide))).2⟩

end EasyWager
